import Mathlib

/-!
Verification of the two notification services of this repository:

* `chatwoot-webhook.js` — the generic-shape Webhook Receiver (Express handler
  `app.post('/chatwoot-webhook')`).
* `process-queue.js` — the Queue Processor (`app.post('/process-queue')`).
* the ticketing-shape Chatwoot webhook `handler` (the second variant of the
  Webhook Receiver, which persists `consultation_messages` rows).

Modelling conventions:

* Timestamps (`new Date().toISOString()`, `scheduled_for`, `sent_at`) are
  naturals; the ISO-string comparison `lte('scheduled_for', now)` is `≤` on
  naturals.  A single `now` stands for the (near-identical) timestamps taken
  during one request.
* Database tables are lists of rows; a PostgREST bulk update
  (`update(..).in('col', xs)`) is a map over the list that rewrites the rows
  whose column is in `xs`; query filters/order/limit are `List.filter`,
  `List.insertionSort` and `List.take`.
* The `priority` column is ordered by `order('priority', ascending: false)`;
  we order the column values through the underlying character list of the
  string, a fixed total order standing for the database's collation.
* The push gateway is an oracle: each HTTP call either fails outright
  (non-ok status or thrown network error — both are handled identically by
  the source) or succeeds with an optional positionally aligned ticket array
  (`result.data`).
* `request.duration_ms` etc. are `Option` fields: `none` means the JSON
  response body does not contain the key.
-/

/-! ## Configuration constants (process-queue.js) -/

def BATCH_SIZE : Nat := 500

def CHUNK_SIZE : Nat := 100

def CONCURRENT_REQUESTS : Nat := 5

/-! ## Data model -/

inductive QStatus
  | pending
  | processing
  | sent
deriving DecidableEq

/-- Position of a status along the `pending → processing → sent` chain. -/
def statusRank : QStatus → Nat
  | .pending => 0
  | .processing => 1
  | .sent => 2

/-- A row of `notification_queue`. -/
structure QueueEntry where
  id : Nat
  user_id : String
  title : String
  body : String
  data : List (String × String)
  priority : String
  category : String
  status : QStatus
  scheduled_for : Nat
  sent_at : Option Nat
deriving DecidableEq

/-- A row of `profile_push_tokens`. -/
structure DeviceToken where
  user_id : String
  expo_push_token : String
  device_name : String
  is_active : Bool
deriving DecidableEq

/-- An Expo push message as built by both services (ephemeral). -/
structure PushMessage where
  «to» : String
  sound : String
  title : String
  body : String
  data : List (String × String)
  priority : String
  channelId : String
deriving DecidableEq

inductive TicketStatus
  | ok
  | error
deriving DecidableEq

/-- A per-message delivery ticket from the gateway response array;
`details_error` models `ticket.details?.error`. -/
structure Ticket where
  status : TicketStatus
  details_error : Option String
deriving DecidableEq

/-- Result of one HTTP call to the Expo push endpoint: `httpFail` covers both a
non-ok HTTP status and a thrown fetch error; `success data` is an ok response
whose parsed body has the optional `data` ticket array. -/
inductive GatewayResult
  | httpFail (errorText : String)
  | success (data : Option (List Ticket))
deriving DecidableEq

/-- JavaScript `x || d` on an optional string field (absent, null and the empty
string all fall back to the default). -/
def jsOr (o : Option String) (d : String) : String :=
  match o with
  | none => d
  | some s => if s = "" then d else s

/-- JavaScript `x || d` on a present string field. -/
def jsOrS (s d : String) : String := if s = "" then d else s

/-! ## Ticket reconciliation (shared by both services)

`chatwoot-webhook.js` lines 112–126 and `process-queue.js` lines 234–245 use
the same test: `ticket.status === 'error' &&
ticket.details?.error === 'DeviceNotRegistered'`, and read the token from the
same position of the submitted message array. -/

def isInvalidTicket (tk : Ticket) : Bool :=
  match tk.status, tk.details_error with
  | .error, some e => e == "DeviceNotRegistered"
  | _, _ => false

/-- Tokens read off the positions of `pairs` (message/ticket, positionally
aligned) whose ticket reports `DeviceNotRegistered`. -/
def invalidOfPairs (pairs : List (PushMessage × Ticket)) : List String :=
  (pairs.filter (fun mt => isInvalidTicket mt.2)).map (fun mt => mt.1.«to»)

/-- The invalid tokens of one gateway call: request array `msgs`, response
ticket array `tks`, aligned 1:1 by position. -/
def invalidTokensOf (msgs : List PushMessage) (tks : List Ticket) : List String :=
  invalidOfPairs (msgs.zip tks)

/-- One `update({is_active: false}).eq('expo_push_token', tok)` call. -/
def deactivateOne (table : List DeviceToken) (tok : String) : List DeviceToken :=
  table.map (fun t => if t.expo_push_token = tok then { t with is_active := false } else t)

/-- One `update({is_active: false}).in('expo_push_token', toks)` bulk call. -/
def deactivateIn (table : List DeviceToken) (toks : List String) : List DeviceToken :=
  table.map (fun t => if toks.contains t.expo_push_token then { t with is_active := false } else t)

/-- The webhook's reconciliation loop (chatwoot-webhook.js lines 112–126): walk
the ticket array in order and fire one single-token deactivation per
`DeviceNotRegistered` ticket. -/
def reconcileTickets (pairs : List (PushMessage × Ticket)) (table : List DeviceToken) :
    List DeviceToken :=
  pairs.foldl (fun tbl mt => if isInvalidTicket mt.2 then deactivateOne tbl mt.1.«to» else tbl) table

/-- Active device tokens of one user, as returned by
`from('profile_push_tokens').eq('user_id', u).eq('is_active', true)` (token
strings, in table order). -/
def activeTokensFor (table : List DeviceToken) (u : String) : List String :=
  (table.filter (fun t => t.user_id == u && t.is_active)).map (fun t => t.expo_push_token)

/-! ## Webhook Receiver, generic variant (chatwoot-webhook.js) -/

/-- The destructured webhook body
`const { event, message_type, content, sender, contact } = req.body`;
`sender_type` is `sender?.type`, `contact_identifier` is `contact?.identifier`. -/
structure WebhookBody where
  event : Option String
  message_type : Option String
  content : Option String
  sender_type : Option String
  contact_identifier : Option String
deriving DecidableEq

/-- JSON body of a webhook response; `none` fields are keys absent from the
body, `status` is the HTTP status code. -/
structure WebhookResponse where
  status : Nat
  ok : Option Bool
  message : Option String
  error : Option String
  details : Option String
  sent : Option Nat
  duration_ms : Option Nat
deriving DecidableEq

/-- Observable outcome of one generic-webhook request: the final
`profile_push_tokens` table, the message array submitted to the gateway
(`[]` when no call was made), and the response. -/
structure WebhookResult where
  tokens : List DeviceToken
  submitted : List PushMessage
  response : WebhookResponse
deriving DecidableEq

def noopResp (m : String) : WebhookResponse :=
  ⟨200, some true, some m, none, none, none, none⟩

/-- One Expo message of the generic webhook (chatwoot-webhook.js lines 76–88). -/
def mkChatMessage (userId : String) (content : Option String) (nowStr : String)
    (tok : String) : PushMessage :=
  { «to» := tok
    sound := "default"
    title := "💬 Nuevo mensaje"
    body := jsOr content "Tienes un nuevo mensaje en el chat"
    data := [("type", "chat_message"), ("userId", userId), ("timestamp", nowStr)]
    priority := "high"
    channelId := "chat" }

/-- The `app.post('/chatwoot-webhook')` handler.  `gw` is the gateway's answer
to the (single) push call, `nowStr` the ISO timestamp put into the message
data, `d` the measured request duration. -/
def chatwootWebhook (body : WebhookBody) (table : List DeviceToken)
    (gw : GatewayResult) (nowStr : String) (d : Nat) : WebhookResult :=
  if body.event ≠ some "message_created" ∨ body.message_type ≠ some "incoming" then
    ⟨table, [], noopResp "Event ignored"⟩
  else if body.sender_type ≠ some "User" then
    ⟨table, [], noopResp "Not from user"⟩
  else
    match body.contact_identifier with
    | none => ⟨table, [], ⟨400, none, none, some "Missing user identifier", none, none, none⟩⟩
    | some uid =>
      if uid = "" then
        ⟨table, [], ⟨400, none, none, some "Missing user identifier", none, none, none⟩⟩
      else
        let userTokens := activeTokensFor table uid
        if userTokens.isEmpty then
          ⟨table, [], noopResp "No active tokens"⟩
        else
          let msgs := userTokens.map (mkChatMessage uid body.content nowStr)
          match gw with
          | .httpFail errText =>
            ⟨table, msgs, ⟨500, none, none, some "Expo API error", some errText, none, none⟩⟩
          | .success dataOpt =>
            let table2 := match dataOpt with
              | none => table
              | some tks => reconcileTickets (msgs.zip tks) table
            ⟨table2, msgs, ⟨200, some true, none, none, none, some userTokens.length, some d⟩⟩

/-! ## Webhook Receiver, ticketing variant (the exported `handler`) -/

/-- A row of `consultations` (read-only here). -/
structure Consultation where
  id : Nat
  user_id : String
  consultant_id : Option String
  chatwoot_conversation_id : String
deriving DecidableEq

/-- A row of `profiles` (only the fields this handler touches). -/
structure Profile where
  id : String
  role : String
deriving DecidableEq

/-- A row of `consultation_messages` (as inserted by the handler). -/
structure ConsultationMessage where
  consultation_id : Nat
  user_id : String
  content : Option String
  message_type : String
  is_read : Bool
deriving DecidableEq

structure TicketingDB where
  consultations : List Consultation
  profiles : List Profile
  consultation_messages : List ConsultationMessage
deriving DecidableEq

/-- The ticketing-shape request: nested `webhook.message` / `webhook.conversation`
fields flattened; `message_sender_type` is `message.sender?.type`. -/
structure TicketingRequest where
  method : String
  event : Option String
  message_message_type : Option String
  message_sender_type : Option String
  message_content : Option String
  conversation_id : Nat
deriving DecidableEq

structure TicketingResponse where
  status : Nat
  success : Option Bool
  message : Option String
  error : Option String
deriving DecidableEq

/-- The ticketing-variant `handler(req, res)`.  `single()` on the consultation
lookup errors unless the filter matches exactly one row; `limit(1).single()` on
the admin/author fallback yields the first matching profile, if any. -/
def ticketingHandler (req : TicketingRequest) (db : TicketingDB) :
    TicketingDB × TicketingResponse :=
  if req.method ≠ "POST" then
    (db, ⟨405, none, none, some "Method not allowed"⟩)
  else if req.event ≠ some "message_created" then
    (db, ⟨200, some true, some "Event ignored", none⟩)
  else if req.message_message_type = some "outgoing" then
    (db, ⟨200, some true, some "Outgoing message ignored", none⟩)
  else
    match db.consultations.filter
        (fun c => c.chatwoot_conversation_id == toString req.conversation_id) with
    | [c] =>
      let sender : String × String :=
        if req.message_sender_type = some "agent" then
          match c.consultant_id with
          | some cid => (cid, "consultant")
          | none =>
            match (db.profiles.filter (fun p => p.role == "admin" || p.role == "author")).head? with
            | some a => (a.id, "consultant")
            | none => (c.user_id, "system")
        else (c.user_id, "user")
      ({ db with consultation_messages :=
          db.consultation_messages ++ [⟨c.id, sender.1, req.message_content, sender.2, false⟩] },
        ⟨200, some true, none, none⟩)
    | _ => (db, ⟨404, none, none, some "Consultation not found"⟩)

/-! ## Queue Processor (process-queue.js) -/

/-- State shared by the Queue Processor's reads and writes. -/
structure DB where
  notification_queue : List QueueEntry
  profile_push_tokens : List DeviceToken
deriving DecidableEq

/-- The claim ordering of `order('priority', {ascending: false})
.order('scheduled_for', {ascending: true})`: `a` may come before `b` iff `a`
has strictly higher priority, or equal priority and no later schedule. -/
def claimOrder (a b : QueueEntry) : Prop :=
  b.priority.data < a.priority.data ∨
    (a.priority = b.priority ∧ a.scheduled_for ≤ b.scheduled_for)

instance : DecidableRel claimOrder := fun a b =>
  inferInstanceAs (Decidable (b.priority.data < a.priority.data ∨
    (a.priority = b.priority ∧ a.scheduled_for ≤ b.scheduled_for)))

instance : IsTotal QueueEntry claimOrder where
  total a b := by
    rcases lt_trichotomy b.priority.data a.priority.data with h | h | h
    · exact Or.inl (Or.inl h)
    · rcases Nat.le_total a.scheduled_for b.scheduled_for with h2 | h2
      · exact Or.inl (Or.inr ⟨String.ext h.symm, h2⟩)
      · exact Or.inr (Or.inr ⟨String.ext h, h2⟩)
    · exact Or.inr (Or.inl h)

instance : IsTrans QueueEntry claimOrder where
  trans _ _ c hab hbc := by
    rcases hab with h1 | ⟨e1, s1⟩
    · rcases hbc with h2 | ⟨e2, s2⟩
      · exact Or.inl (h2.trans h1)
      · exact Or.inl (e2 ▸ h1)
    · rcases hbc with h2 | ⟨e2, s2⟩
      · exact Or.inl (e1 ▸ h2)
      · exact Or.inr ⟨e1.trans e2, s1.trans s2⟩

/-- The claim query (process-queue.js lines 92–99): status `pending`,
`scheduled_for ≤ now`, ordered by descending priority then ascending
`scheduled_for`, limited to `BATCH_SIZE` rows. -/
def fetchPending (now : Nat) (db : DB) : List QueueEntry :=
  ((db.notification_queue.filter
      (fun e => decide (e.status = .pending) && decide (e.scheduled_for ≤ now))).insertionSort
    claimOrder).take BATCH_SIZE

/-- First-occurrence key order of a JavaScript object built by inserting the
listed keys in order (`Object.keys(byUser)`); fuel-driven so it computes by
kernel reduction. -/
def jsKeysAux : Nat → List String → List String
  | 0, _ => []
  | fuel + 1, l =>
    match l with
    | [] => []
    | x :: xs => x :: jsKeysAux fuel (xs.filter (fun y => y != x))

def jsKeys (l : List String) : List String := jsKeysAux l.length l

/-- `Object.keys(byUser)`: the distinct user ids of the claimed entries, in
first-occurrence order. -/
def userIdsOf (entries : List QueueEntry) : List String :=
  jsKeys (entries.map (fun e => e.user_id))

/-- `byUser[u]`: the claimed entries of one user, in claim order. -/
def entriesFor (entries : List QueueEntry) (u : String) : List QueueEntry :=
  entries.filter (fun e => e.user_id == u)

/-- One Expo message of the queue expansion (process-queue.js lines 176–184). -/
def mkQueueMessage (n : QueueEntry) (tok : String) : PushMessage :=
  { «to» := tok
    sound := "default"
    title := n.title
    body := n.body
    data := n.data
    priority := jsOrS n.priority "default"
    channelId := n.category }

/-- Body of the expansion loop for one user (process-queue.js lines 166–192):
skip the user when `userTokens.length === 0`, else one message per
(entry, token) pair. -/
def userMessages (claimed : List QueueEntry) (table : List DeviceToken) (u : String) :
    List PushMessage :=
  let userTokens := activeTokensFor table u
  if userTokens.length == 0 then []
  else (entriesFor claimed u).flatMap (fun n => userTokens.map (fun tok => mkQueueMessage n tok))

/-- The expansion loop (process-queue.js lines 162–192): per user with at
least one active token, one message per (entry, token) pair. -/
def expandMessages (claimed : List QueueEntry) (table : List DeviceToken) : List PushMessage :=
  (userIdsOf claimed).flatMap (userMessages claimed table)

/-- `messages.slice(i, i + CHUNK_SIZE)` chunking (process-queue.js lines
210–211); fuel-driven so it computes by kernel reduction. -/
def chunkSplitAux : Nat → List PushMessage → List (List PushMessage)
  | 0, _ => []
  | fuel + 1, l =>
    if l.isEmpty then []
    else l.take CHUNK_SIZE :: chunkSplitAux fuel (l.drop CHUNK_SIZE)

def chunkSplit (l : List PushMessage) : List (List PushMessage) :=
  chunkSplitAux l.length l

/-- The chunk delivery loop (process-queue.js lines 210–255).  `o k` is the
gateway's answer to the `k`-th chunk call; a failed call is skipped, a
successful call counts its whole chunk into `totalSent` and contributes the
`DeviceNotRegistered` positions of its optional ticket array to the invalid
set.  Returns `(totalSent, invalid tokens in detection order)`. -/
def deliverLoop (o : Nat → GatewayResult) : Nat → List (List PushMessage) → Nat × List String
  | _, [] => (0, [])
  | i, c :: rest =>
    let r := deliverLoop o (i + 1) rest
    match o i with
    | .httpFail _ => r
    | .success dataOpt =>
      (c.length + r.1,
        (match dataOpt with
          | none => []
          | some tks => invalidTokensOf c tks) ++ r.2)

/-- `update({status: s}).in('id', ids)` on `notification_queue`. -/
def markStatus (queue : List QueueEntry) (ids : List Nat) (s : QStatus) : List QueueEntry :=
  queue.map (fun e => if ids.contains e.id then { e with status := s } else e)

/-- `update({status: 'sent', sent_at: now}).in('id', ids)`. -/
def markSent (queue : List QueueEntry) (ids : List Nat) (now : Nat) : List QueueEntry :=
  queue.map (fun e =>
    if ids.contains e.id then { e with status := .sent, sent_at := some now } else e)

/-- JSON body of a `/process-queue` response (`none` = key absent). -/
structure QueueResponse where
  ok : Bool
  processed : Nat
  sent : Option Nat
  invalidTokens : Option Nat
  duration_ms : Option Nat
deriving DecidableEq

/-- One full `app.post('/process-queue')` cycle.  `o` answers the chunk calls
in order; `finalUpdateFails` says whether the step-8 bulk update errors (its
error is only logged); `d` is the measured duration. -/
def processQueue (now : Nat) (o : Nat → GatewayResult) (finalUpdateFails : Bool)
    (d : Nat) (db : DB) : DB × QueueResponse :=
  let claimed := fetchPending now db
  if claimed.isEmpty then
    (db, ⟨true, 0, none, none, none⟩)
  else
    let ids := claimed.map (fun e => e.id)
    let db1 : DB := { db with notification_queue := markStatus db.notification_queue ids .processing }
    let msgs := expandMessages claimed db1.profile_push_tokens
    if msgs.isEmpty then
      ({ db1 with notification_queue := markSent db1.notification_queue ids now },
        ⟨true, claimed.length, some 0, none, none⟩)
    else
      let dres := deliverLoop o 0 (chunkSplit msgs)
      let inv := dres.2.dedup
      let db2 : DB :=
        if inv.isEmpty then db1
        else { db1 with profile_push_tokens := deactivateIn db1.profile_push_tokens inv }
      let db3 : DB :=
        if finalUpdateFails then db2
        else { db2 with notification_queue := markSent db2.notification_queue ids now }
      (db3, ⟨true, claimed.length, some dres.1, some inv.length, some d⟩)

/-- The message list one cycle expands (claim query at `now` against `db`). -/
def messagesOf (now : Nat) (db : DB) : List PushMessage :=
  expandMessages (fetchPending now db) db.profile_push_tokens

/-- Sent count and invalid-token list of one cycle's delivery phase. -/
def deliveredOf (now : Nat) (o : Nat → GatewayResult) (db : DB) : Nat × List String :=
  deliverLoop o 0 (chunkSplit (messagesOf now db))

/-! ## General lemmas -/

theorem forall2_map_self {α β : Type} (f : α → β) (R : α → β → Prop) (l : List α)
    (h : ∀ a ∈ l, R a (f a)) : List.Forall₂ R l (l.map f) := by
  induction l with
  | nil => exact List.Forall₂.nil
  | cons x xs ih =>
    exact List.Forall₂.cons (h x (by simp)) (ih (fun a ha => h a (by simp [ha])))

theorem sum_map_const_nat {α : Type} (l : List α) (c : Nat) :
    (l.map (fun _ => c)).sum = l.length * c := by
  induction l with
  | nil => simp
  | cons x xs ih => simp [ih, Nat.succ_mul, Nat.add_comm]

theorem statusRank_le_two (s : QStatus) : statusRank s ≤ 2 := by
  cases s <;> simp [statusRank]

theorem isInvalidTicket_iff (tk : Ticket) :
    isInvalidTicket tk = true ↔
      tk.status = .error ∧ tk.details_error = some "DeviceNotRegistered" := by
  rcases tk with ⟨st, de⟩
  cases st <;> cases de <;> simp [isInvalidTicket]

/-! ## Chunking lemmas -/

theorem chunkSplitAux_flatten :
    ∀ (fuel : Nat) (l : List PushMessage), l.length ≤ fuel →
      (chunkSplitAux fuel l).flatten = l := by
  intro fuel
  induction fuel with
  | zero =>
    intro l hl
    rw [List.length_eq_zero.mp (Nat.le_zero.mp hl)]
    rfl
  | succ n ih =>
    intro l hl
    match l with
    | [] => rfl
    | x :: xs =>
      simp only [chunkSplitAux, List.isEmpty_cons, Bool.false_eq_true, if_false,
        List.flatten_cons]
      rw [ih ((x :: xs).drop CHUNK_SIZE)
        (by simp only [List.length_drop, List.length_cons, CHUNK_SIZE] at *; omega),
        List.take_append_drop]

theorem chunkSplit_flatten (l : List PushMessage) : (chunkSplit l).flatten = l :=
  chunkSplitAux_flatten l.length l le_rfl

theorem chunkSplitAux_length_le :
    ∀ (fuel : Nat) (l c : List PushMessage), c ∈ chunkSplitAux fuel l →
      c.length ≤ CHUNK_SIZE := by
  intro fuel
  induction fuel with
  | zero => intro l c hc; simp [chunkSplitAux] at hc
  | succ n ih =>
    intro l c hc
    match l with
    | [] => simp [chunkSplitAux] at hc
    | x :: xs =>
      simp only [chunkSplitAux, List.isEmpty_cons, Bool.false_eq_true, if_false,
        List.mem_cons] at hc
      rcases hc with h | h
      · subst h; exact List.length_take_le _ _
      · exact ih _ _ h

theorem chunkSplit_length_le (l c : List PushMessage) (h : c ∈ chunkSplit l) :
    c.length ≤ CHUNK_SIZE :=
  chunkSplitAux_length_le l.length l c h

/-! ## Expansion counting -/

theorem userMessages_length (claimed : List QueueEntry) (table : List DeviceToken)
    (u : String) :
    (userMessages claimed table u).length =
      if (activeTokensFor table u).isEmpty then 0
      else (entriesFor claimed u).length * (activeTokensFor table u).length := by
  unfold userMessages
  by_cases hu : (activeTokensFor table u).isEmpty
  · have hlen : ((activeTokensFor table u).length == 0) = true := by
      simp [List.isEmpty_iff.mp hu]
    simp [hlen, hu]
  · have hlen : ((activeTokensFor table u).length == 0) = false := by
      simp only [beq_eq_false_iff_ne, ne_eq, List.length_eq_zero]
      exact fun h => hu (List.isEmpty_iff.mpr h)
    rw [Bool.not_eq_true] at hu
    simp only [hlen, Bool.false_eq_true, if_false, hu, List.length_flatMap]
    rw [show (List.map (List.length ∘ fun n =>
        List.map (fun tok => mkQueueMessage n tok) (activeTokensFor table u))
        (entriesFor claimed u))
        = (entriesFor claimed u).map (fun _ => (activeTokensFor table u).length)
      from List.map_congr_left (fun a _ => by simp), sum_map_const_nat]

theorem expandMessages_length (claimed : List QueueEntry) (table : List DeviceToken) :
    (expandMessages claimed table).length =
      (((userIdsOf claimed).filter (fun u => !(activeTokensFor table u).isEmpty)).map
        (fun u => (entriesFor claimed u).length * (activeTokensFor table u).length)).sum := by
  unfold expandMessages
  rw [List.length_flatMap]
  induction userIdsOf claimed with
  | nil => rfl
  | cons u us ih =>
    simp only [List.map_cons, List.sum_cons, List.filter_cons, Function.comp_apply,
      userMessages_length]
    by_cases hu : (activeTokensFor table u).isEmpty
    · simp only [hu, if_true, Bool.not_true, Bool.false_eq_true, if_false, Nat.zero_add]
      exact ih
    · rw [Bool.not_eq_true] at hu
      simp only [hu, Bool.false_eq_true, if_false, Bool.not_false, if_true,
        List.map_cons, List.sum_cons]
      rw [ih]

/-! ## Delivery-loop lemmas -/

theorem deliverLoop_fst (o : Nat → GatewayResult) (chunks : List (List PushMessage)) :
    ∀ i, (deliverLoop o i chunks).1 =
      ((List.range chunks.length).map (fun k =>
        match o (i + k) with
        | .httpFail _ => 0
        | .success _ => (chunks.getD k []).length)).sum := by
  induction chunks with
  | nil => intro i; rfl
  | cons c rest ih =>
    intro i
    have hfn : (List.range rest.length).map ((fun k =>
        match o (i + k) with
        | .httpFail _ => 0
        | .success _ => ((c :: rest).getD k []).length) ∘ Nat.succ)
        = (List.range rest.length).map (fun k =>
        match o ((i + 1) + k) with
        | .httpFail _ => 0
        | .success _ => (rest.getD k []).length) := by
      apply List.map_congr_left
      intro k _
      simp only [Function.comp_apply, List.getD_cons_succ]
      rw [show i + Nat.succ k = (i + 1) + k by omega]
    simp only [List.length_cons, List.range_succ_eq_map, List.map_cons, List.map_map,
      List.sum_cons, Nat.add_zero, List.getD_cons_zero, hfn, ← ih (i + 1)]
    cases h : o i with
    | httpFail e => simp [deliverLoop, h]
    | success dt => simp [deliverLoop, h]

theorem deliverLoop_snd_mem (o : Nat → GatewayResult) (chunks : List (List PushMessage))
    (t : String) :
    ∀ i, t ∈ (deliverLoop o i chunks).2 ↔
      ∃ k, k < chunks.length ∧ ∃ tks, o (i + k) = .success (some tks) ∧
        t ∈ invalidTokensOf (chunks.getD k []) tks := by
  induction chunks with
  | nil => intro i; simp [deliverLoop]
  | cons c rest ih =>
    intro i
    have hshift : ∀ P : Nat → Prop,
        ((∃ k, k < rest.length ∧ P ((i + 1) + k)) ↔
          (∃ k, 0 < k ∧ k < rest.length + 1 ∧ P (i + k))) := by
      intro P
      constructor
      · rintro ⟨k, hk, hp⟩
        exact ⟨k + 1, Nat.succ_pos k, by omega, by rw [show i + (k + 1) = (i + 1) + k by omega]; exact hp⟩
      · rintro ⟨k, hk0, hk, hp⟩
        match k, hk0 with
        | k + 1, _ =>
          exact ⟨k, by omega, by rw [show (i + 1) + k = i + (k + 1) by omega]; exact hp⟩
    cases h : o i with
    | httpFail e =>
      rw [show (deliverLoop o i (c :: rest)).2 = (deliverLoop o (i + 1) rest).2 by
        simp [deliverLoop, h]]
      rw [ih (i + 1)]
      constructor
      · rintro ⟨k, hk, tks, hok, hmem⟩
        refine ⟨k + 1, by simp; omega, tks, ?_, by simpa using hmem⟩
        rw [show i + (k + 1) = (i + 1) + k by omega]
        exact hok
      · rintro ⟨k, hk, tks, hok, hmem⟩
        match k with
        | 0 =>
          rw [Nat.add_zero, h] at hok
          cases hok
        | k + 1 =>
          refine ⟨k, by simp at hk; omega, tks, ?_, by simpa using hmem⟩
          rw [show (i + 1) + k = i + (k + 1) by omega]
          exact hok
    | success dt =>
      cases dt with
      | none =>
        rw [show (deliverLoop o i (c :: rest)).2 = (deliverLoop o (i + 1) rest).2 by
          simp [deliverLoop, h]]
        rw [ih (i + 1)]
        constructor
        · rintro ⟨k, hk, tks, hok, hmem⟩
          refine ⟨k + 1, by simp; omega, tks, ?_, by simpa using hmem⟩
          rw [show i + (k + 1) = (i + 1) + k by omega]
          exact hok
        · rintro ⟨k, hk, tks, hok, hmem⟩
          match k with
          | 0 =>
            rw [Nat.add_zero, h] at hok
            cases hok
          | k + 1 =>
            refine ⟨k, by simp at hk; omega, tks, ?_, by simpa using hmem⟩
            rw [show (i + 1) + k = i + (k + 1) by omega]
            exact hok
      | some tks0 =>
        rw [show (deliverLoop o i (c :: rest)).2 =
            invalidTokensOf c tks0 ++ (deliverLoop o (i + 1) rest).2 by
          simp [deliverLoop, h]]
        rw [List.mem_append, ih (i + 1)]
        constructor
        · rintro (hhead | ⟨k, hk, tks, hok, hmem⟩)
          · exact ⟨0, by simp, tks0, by rw [Nat.add_zero, h], by simpa using hhead⟩
          · refine ⟨k + 1, by simp; omega, tks, ?_, by simpa using hmem⟩
            rw [show i + (k + 1) = (i + 1) + k by omega]
            exact hok
        · rintro ⟨k, hk, tks, hok, hmem⟩
          match k with
          | 0 =>
            rw [Nat.add_zero, h] at hok
            cases hok
            exact Or.inl (by simpa using hmem)
          | k + 1 =>
            refine Or.inr ⟨k, by simp at hk; omega, tks, ?_, by simpa using hmem⟩
            rw [show (i + 1) + k = i + (k + 1) by omega]
            exact hok

/-! ## Reconciliation lemmas -/

theorem invalidTokensOf_mem (msgs : List PushMessage) (tks : List Ticket) (t : String) :
    t ∈ invalidTokensOf msgs tks ↔
      ∃ i, ∃ h1 : i < msgs.length, ∃ h2 : i < tks.length,
        (tks.get ⟨i, h2⟩).status = .error ∧
        (tks.get ⟨i, h2⟩).details_error = some "DeviceNotRegistered" ∧
        (msgs.get ⟨i, h1⟩).«to» = t := by
  unfold invalidTokensOf invalidOfPairs
  rw [List.mem_map]
  constructor
  · rintro ⟨⟨m, tk⟩, hmem, rfl⟩
    rw [List.mem_filter] at hmem
    obtain ⟨hz, hinv⟩ := hmem
    rw [List.mem_iff_getElem] at hz
    obtain ⟨n, hn, hget⟩ := hz
    have hlen := hn
    rw [List.length_zip] at hlen
    have h1 : n < msgs.length := lt_of_lt_of_le hlen (min_le_left _ _)
    have h2 : n < tks.length := lt_of_lt_of_le hlen (min_le_right _ _)
    have hz2 : (msgs.zip tks)[n] = (msgs[n], tks[n]) := List.getElem_zip
    rw [hget] at hz2
    obtain ⟨hm, ht⟩ := Prod.mk.injEq .. ▸ hz2
    obtain ⟨hst, hde⟩ := (isInvalidTicket_iff tk).mp hinv
    refine ⟨n, h1, h2, ?_, ?_, ?_⟩
    · rw [List.get_eq_getElem, ← ht]; exact hst
    · rw [List.get_eq_getElem, ← ht]; exact hde
    · rw [List.get_eq_getElem, ← hm]
  · rintro ⟨n, h1, h2, hst, hde, hto⟩
    refine ⟨(msgs.get ⟨n, h1⟩, tks.get ⟨n, h2⟩), ?_, hto⟩
    rw [List.mem_filter]
    constructor
    · rw [List.mem_iff_getElem]
      refine ⟨n, by rw [List.length_zip]; exact lt_min h1 h2, ?_⟩
      rw [List.getElem_zip]
      simp [List.get_eq_getElem]
    · exact (isInvalidTicket_iff _).mpr ⟨hst, hde⟩

theorem invalidOfPairs_cons (p : PushMessage × Ticket) (rest : List (PushMessage × Ticket)) :
    invalidOfPairs (p :: rest) =
      if isInvalidTicket p.2 then p.1.«to» :: invalidOfPairs rest else invalidOfPairs rest := by
  unfold invalidOfPairs
  rw [List.filter_cons]
  by_cases hp : isInvalidTicket p.2 <;> simp [hp]

theorem reconcileTickets_eq (pairs : List (PushMessage × Ticket)) :
    ∀ table, reconcileTickets pairs table = deactivateIn table (invalidOfPairs pairs) := by
  induction pairs with
  | nil =>
    intro table
    unfold reconcileTickets invalidOfPairs deactivateIn
    simp
  | cons p rest ih =>
    intro table
    rw [show reconcileTickets (p :: rest) table =
        reconcileTickets rest
          (if isInvalidTicket p.2 then deactivateOne table p.1.«to» else table) by
      unfold reconcileTickets; rw [List.foldl_cons]]
    rw [invalidOfPairs_cons]
    by_cases hp : isInvalidTicket p.2
    · rw [if_pos hp, if_pos hp, ih]
      unfold deactivateIn deactivateOne
      rw [List.map_map]
      apply List.map_congr_left
      intro a _
      rcases a with ⟨u, tok, dn, act⟩
      by_cases h1 : tok = p.1.«to»
      · by_cases h2 : (invalidOfPairs rest).contains tok <;>
          simp [Function.comp, h1, h2, List.contains_cons]
      · by_cases h2 : (invalidOfPairs rest).contains tok <;>
          simp [Function.comp, h1, h2, List.contains_cons]
    · rw [if_neg hp, if_neg hp, ih]

/-! ## Claim-query lemmas -/

theorem fetchPending_mem {now : Nat} {db : DB} {e : QueueEntry}
    (h : e ∈ fetchPending now db) :
    e ∈ db.notification_queue ∧ e.status = .pending ∧ e.scheduled_for ≤ now := by
  unfold fetchPending at h
  have h2 : e ∈ (db.notification_queue.filter
      (fun e => decide (e.status = .pending) && decide (e.scheduled_for ≤ now))) :=
    (List.perm_insertionSort claimOrder _).mem_iff.mp ((List.take_sublist BATCH_SIZE _).mem h)
  rw [List.mem_filter] at h2
  obtain ⟨hmem, hcond⟩ := h2
  rw [Bool.and_eq_true, decide_eq_true_iff, decide_eq_true_iff] at hcond
  exact ⟨hmem, hcond.1, hcond.2⟩

theorem markSent_mem {q : List QueueEntry} {ids : List Nat} {now : Nat} {e : QueueEntry}
    (he : e ∈ markSent q ids now) (hid : e.id ∈ ids) :
    e.status = .sent ∧ e.sent_at = some now := by
  unfold markSent at he
  obtain ⟨a, _, rfl⟩ := List.mem_map.mp he
  by_cases hc : ids.contains a.id
  · rw [if_pos hc]
    exact ⟨rfl, rfl⟩
  · rw [if_neg hc]
    rw [if_neg hc] at hid
    simp at hc
    exact absurd hid hc

theorem markStatus_mem {q : List QueueEntry} {ids : List Nat} {s : QStatus} {e : QueueEntry}
    (he : e ∈ markStatus q ids s) (hid : e.id ∈ ids) : e.status = s := by
  unfold markStatus at he
  obtain ⟨a, _, rfl⟩ := List.mem_map.mp he
  by_cases hc : ids.contains a.id
  · rw [if_pos hc]
  · rw [if_neg hc]
    rw [if_neg hc] at hid
    simp at hc
    exact absurd hid hc

theorem mem_ids_pending {now : Nat} {db : DB}
    (hn : (db.notification_queue.map (fun e => e.id)).Nodup)
    {a : QueueEntry} (ha : a ∈ db.notification_queue)
    (hid : a.id ∈ (fetchPending now db).map (fun e => e.id)) : a.status = .pending := by
  obtain ⟨e, he, heid⟩ := List.mem_map.mp hid
  obtain ⟨heq, hst, _⟩ := fetchPending_mem he
  have hae : a = e := List.inj_on_of_nodup_map hn ha heq heid.symm
  rw [hae]
  exact hst

/-! ## Path lemmas for the queue cycle -/

theorem messagesOf_of_empty {now : Nat} {db : DB} (h : fetchPending now db = []) :
    messagesOf now db = [] := by
  unfold messagesOf
  rw [h]
  rfl

theorem deliveredOf_of_msgs_empty {now : Nat} {db : DB} (o : Nat → GatewayResult)
    (hm : messagesOf now db = []) : deliveredOf now o db = (0, []) := by
  unfold deliveredOf
  rw [hm]
  rfl

theorem processQueue_empty {now : Nat} {db : DB} (o : Nat → GatewayResult)
    (f : Bool) (d : Nat) (h : fetchPending now db = []) :
    processQueue now o f d db = (db, ⟨true, 0, none, none, none⟩) := by
  unfold processQueue
  rw [h]
  rfl

theorem processQueue_msgsEmpty {now : Nat} {db : DB} (o : Nat → GatewayResult)
    (f : Bool) (d : Nat)
    (hne : fetchPending now db ≠ []) (hm : messagesOf now db = []) :
    processQueue now o f d db =
      ({ db with notification_queue :=
          (markSent (markStatus db.notification_queue
              ((fetchPending now db).map (fun e => e.id)) QStatus.processing)
            ((fetchPending now db).map (fun e => e.id)) now) },
        ⟨true, (fetchPending now db).length, some 0, none, none⟩) := by
  have hc1 : (fetchPending now db).isEmpty = false := List.isEmpty_eq_false.mpr hne
  have hc2 : (expandMessages (fetchPending now db) db.profile_push_tokens).isEmpty = true := by
    rw [show expandMessages (fetchPending now db) db.profile_push_tokens
        = messagesOf now db from rfl, hm]
    rfl
  unfold processQueue
  simp only [hc1, Bool.false_eq_true, if_false, hc2, if_true]

theorem processQueue_main {now : Nat} {db : DB} (o : Nat → GatewayResult)
    (f : Bool) (d : Nat)
    (hne : fetchPending now db ≠ []) (hm : messagesOf now db ≠ []) :
    processQueue now o f d db =
      (⟨(if f then
            markStatus db.notification_queue
              ((fetchPending now db).map (fun e => e.id)) QStatus.processing
          else
            markSent (markStatus db.notification_queue
                ((fetchPending now db).map (fun e => e.id)) QStatus.processing)
              ((fetchPending now db).map (fun e => e.id)) now),
        (if (deliveredOf now o db).2.dedup.isEmpty then db.profile_push_tokens
          else deactivateIn db.profile_push_tokens (deliveredOf now o db).2.dedup)⟩,
        ⟨true, (fetchPending now db).length, some (deliveredOf now o db).1,
          some (deliveredOf now o db).2.dedup.length, some d⟩) := by
  have hc1 : (fetchPending now db).isEmpty = false := List.isEmpty_eq_false.mpr hne
  have hc2 : (expandMessages (fetchPending now db) db.profile_push_tokens).isEmpty = false := by
    rw [show expandMessages (fetchPending now db) db.profile_push_tokens
        = messagesOf now db from rfl]
    exact List.isEmpty_eq_false.mpr hm
  unfold processQueue
  simp only [hc1, Bool.false_eq_true, if_false, hc2]
  rw [show deliverLoop o 0
      (chunkSplit (expandMessages (fetchPending now db) db.profile_push_tokens))
      = deliveredOf now o db from rfl]
  by_cases hf : f <;>
    by_cases hi : ((deliveredOf now o db).2.dedup).isEmpty <;>
      simp [hf, hi]

/-! ## Concrete fixtures used by witnesses and counterexamples -/

def exEntryA : QueueEntry := ⟨1, "uA", "tA", "bA", [], "high", "general", .pending, 0, none⟩

def exEntryB1 : QueueEntry := ⟨2, "uB", "tB1", "bB1", [], "high", "general", .pending, 0, none⟩

def exEntryB2 : QueueEntry := ⟨3, "uB", "tB2", "bB2", [], "low", "general", .pending, 1, none⟩

def exTokens : List DeviceToken :=
  [⟨"uA", "tokA1", "phone", true⟩, ⟨"uA", "tokA2", "tablet", true⟩]

def exDb : DB := ⟨[exEntryA, exEntryB1, exEntryB2], exTokens⟩

def exEmptyDb : DB := ⟨[], []⟩

def exFailGw : Nat → GatewayResult := fun _ => .httpFail "500"

def exMsg1 : PushMessage := ⟨"tokA1", "default", "t", "b", [], "high", "chat"⟩

def exMsg2 : PushMessage := ⟨"tokA2", "default", "t", "b", [], "high", "chat"⟩

/-! ## Claims -/

/-- C6: for every message list, concatenating the chunks of `chunkSplit` in
send order reconstructs the original list in order, no chunk holds more than
100 messages, and the configured constant `CHUNK_SIZE` is 100. -/
theorem claim_C6_chunk_roundtrip (l : List PushMessage) :
    (chunkSplit l).flatten = l ∧ (∀ c ∈ chunkSplit l, c.length ≤ 100) ∧ CHUNK_SIZE = 100 :=
  ⟨chunkSplit_flatten l, fun c hc => chunkSplit_length_le l c hc, rfl⟩

/-- Witness for C6 at a concrete two-message list. -/
theorem claim_C6_chunk_roundtrip_witness :
    (chunkSplit [exMsg1, exMsg2]).flatten = [exMsg1, exMsg2] ∧
      ([exMsg1, exMsg2] : List PushMessage).length ≤ 100 :=
  ⟨(claim_C6_chunk_roundtrip [exMsg1, exMsg2]).1,
    (claim_C6_chunk_roundtrip [exMsg1, exMsg2]).2.1 [exMsg1, exMsg2] (by decide)⟩

/-- C3: the expansion builds one PushMessage per (entry, token) pair of every
token-holding user, so its length is the sum over token-holding users of
(entries × tokens); in the §8 scenario (3 pending entries for 2 users, one
user with 2 active tokens — holding 1 of the entries — and the other with 0)
it yields exactly 2 messages. -/
theorem claim_C3_expansion_count :
    (∀ (claimed : List QueueEntry) (table : List DeviceToken),
      (expandMessages claimed table).length =
        (((userIdsOf claimed).filter (fun u => !(activeTokensFor table u).isEmpty)).map
          (fun u => (entriesFor claimed u).length * (activeTokensFor table u).length)).sum) ∧
    (expandMessages [exEntryA, exEntryB1, exEntryB2] exTokens).length = 2 :=
  ⟨expandMessages_length, by decide⟩

/-- C7: the claim query returns at most `BATCH_SIZE` (= 500) entries, all
pending and due, pairwise ordered by strictly descending priority then
ascending `scheduled_for`; an empty result produces the ok response with
`processed = 0` and no error. -/
theorem claim_C7_claim_query (now d : Nat) (o : Nat → GatewayResult) (f : Bool) (db : DB) :
    (fetchPending now db).length ≤ BATCH_SIZE ∧ BATCH_SIZE = 500 ∧
    (∀ e ∈ fetchPending now db, e.status = .pending ∧ e.scheduled_for ≤ now) ∧
    List.Pairwise claimOrder (fetchPending now db) ∧
    (fetchPending now db = [] →
      (processQueue now o f d db).2 = ⟨true, 0, none, none, none⟩) := by
  refine ⟨List.length_take_le _ _, rfl, ?_, ?_, ?_⟩
  · exact fun e he => (fetchPending_mem he).2
  · exact List.Pairwise.sublist (List.take_sublist _ _) (List.sorted_insertionSort claimOrder _)
  · intro h
    rw [processQueue_empty o f d h]

/-- Witness for C7 at the empty table. -/
theorem claim_C7_claim_query_witness :
    (fetchPending 0 exEmptyDb).length ≤ BATCH_SIZE ∧
    (processQueue 0 exFailGw false 0 exEmptyDb).2 = ⟨true, 0, none, none, none⟩ :=
  ⟨(claim_C7_claim_query 0 0 exFailGw false exEmptyDb).1,
    (claim_C7_claim_query 0 0 exFailGw false exEmptyDb).2.2.2.2 (by decide)⟩

/-- C1: for a non-empty claimed set, when the cycle completes (the final bulk
update is applied), every originally claimed entry ends with status sent and a
sent_at timestamp, whatever the delivery outcome — including the zero-message
early return. -/
theorem claim_C1_finalize_sent (now d : Nat) (o : Nat → GatewayResult) (db : DB)
    (hne : fetchPending now db ≠ []) :
    ∀ e ∈ (processQueue now o false d db).1.notification_queue,
      e.id ∈ (fetchPending now db).map (fun x => x.id) →
      e.status = .sent ∧ e.sent_at = some now := by
  intro e he hid
  by_cases hm : messagesOf now db = []
  · rw [processQueue_msgsEmpty o false d hne hm] at he
    exact markSent_mem he hid
  · rw [processQueue_main o false d hne hm] at he
    simp only [Bool.false_eq_true, if_false] at he
    exact markSent_mem he hid

/-- Witness for C1: with every chunk call failing, the claimed entry 1 still
ends sent with a timestamp. -/
theorem claim_C1_finalize_sent_witness :
    ({ exEntryA with status := QStatus.sent, sent_at := some 5 } : QueueEntry).status = .sent ∧
    ({ exEntryA with status := QStatus.sent, sent_at := some 5 } : QueueEntry).sent_at = some 5 :=
  claim_C1_finalize_sent 5 0 exFailGw exDb (by decide)
    { exEntryA with status := QStatus.sent, sent_at := some 5 } (by decide) (by decide)

/-- C5: a chunk whose gateway call fails contributes zero to the sent count
and is skipped; every successfully delivered chunk counts its full length; the
response still reports ok. -/
theorem claim_C5_partial_failure (now d : Nat) (o : Nat → GatewayResult) (f : Bool) (db : DB)
    (hne : fetchPending now db ≠ []) (hm : messagesOf now db ≠ []) :
    (processQueue now o f d db).2.ok = true ∧
    (processQueue now o f d db).2.sent = some
      (((List.range (chunkSplit (messagesOf now db)).length).map (fun k =>
        match o k with
        | .httpFail _ => 0
        | .success _ => ((chunkSplit (messagesOf now db)).getD k []).length)).sum) := by
  rw [processQueue_main o f d hne hm]
  refine ⟨rfl, ?_⟩
  show some (deliveredOf now o db).1 = _
  rw [show (deliveredOf now o db).1
      = (deliverLoop o 0 (chunkSplit (messagesOf now db))).1 from rfl,
    deliverLoop_fst]
  simp

/-- Witness for C5: all chunk calls fail, the cycle still answers ok with a
sent count of zero. -/
theorem claim_C5_partial_failure_witness :
    (processQueue 5 exFailGw false 0 exDb).2.ok = true ∧
    (processQueue 5 exFailGw false 0 exDb).2.sent = some
      (((List.range (chunkSplit (messagesOf 5 exDb)).length).map (fun k =>
        match exFailGw k with
        | .httpFail _ => 0
        | .success _ => ((chunkSplit (messagesOf 5 exDb)).getD k []).length)).sum) :=
  claim_C5_partial_failure 5 0 exFailGw false exDb (by decide) (by decide)

/-- C10 (implicit): when the step-8 bulk update fails, the error is only
logged: the response still reports ok with the full processed and sent counts,
the claimed entries stay in status processing, and — since the claim query
only selects pending rows — no later cycle returns them. -/
theorem claim_C10_final_update_failure (now now2 d : Nat) (o : Nat → GatewayResult) (db : DB)
    (hne : fetchPending now db ≠ []) (hm : messagesOf now db ≠ []) :
    (processQueue now o true d db).2.ok = true ∧
    (processQueue now o true d db).2.processed = (fetchPending now db).length ∧
    (processQueue now o true d db).2.sent = some (deliveredOf now o db).1 ∧
    (∀ e ∈ (processQueue now o true d db).1.notification_queue,
      e.id ∈ (fetchPending now db).map (fun x => x.id) → e.status = .processing) ∧
    (∀ e ∈ fetchPending now2 (processQueue now o true d db).1,
      e.id ∉ (fetchPending now db).map (fun x => x.id)) := by
  rw [processQueue_main o true d hne hm]
  refine ⟨rfl, rfl, rfl, ?_, ?_⟩
  · intro e he hid
    simp only [if_true] at he
    exact markStatus_mem he hid
  · intro e he hid
    obtain ⟨hmem, hst, _⟩ := fetchPending_mem he
    simp only [if_true] at hmem
    have hproc := markStatus_mem hmem hid
    rw [hst] at hproc
    cases hproc

/-- Witness for C10: with the final update failing, entry 1 is processing and
the response still reports ok. -/
theorem claim_C10_final_update_failure_witness :
    (processQueue 5 exFailGw true 0 exDb).2.ok = true ∧
    ({ exEntryA with status := QStatus.processing } : QueueEntry).status = .processing :=
  ⟨(claim_C10_final_update_failure 5 0 0 exFailGw exDb (by decide) (by decide)).1,
    (claim_C10_final_update_failure 5 0 0 exFailGw exDb (by decide) (by decide)).2.2.2.1
      { exEntryA with status := QStatus.processing } (by decide) (by decide)⟩

/-! ## Token-effect helpers -/

theorem deactivateIn_forall2 (table : List DeviceToken) (toks : List String) :
    List.Forall₂ (fun old new => new.is_active =
        (old.is_active && !(toks.contains old.expo_push_token)))
      table (deactivateIn table toks) := by
  apply forall2_map_self
  intro a _
  by_cases h : a.expo_push_token ∈ toks
  · simp [h]
  · simp [h]

theorem deactivateIn_active_mono (table : List DeviceToken) (toks : List String) :
    List.Forall₂ (fun a b => b.is_active = true → a.is_active = true)
      table (deactivateIn table toks) := by
  apply forall2_map_self
  intro a _
  by_cases h : a.expo_push_token ∈ toks
  · simp [h]
  · simp [h]

theorem contains_dedup (l : List String) (x : String) :
    l.dedup.contains x = l.contains x := by
  by_cases h : x ∈ l
  · rw [show l.dedup.contains x = true by simp [List.mem_dedup, h],
      show l.contains x = true by simp [h]]
  · rw [show l.dedup.contains x = false by simp [List.mem_dedup, h],
      show l.contains x = false by simp [h]]

theorem webhook_tokens_forall2 (body : WebhookBody) (table : List DeviceToken)
    (tks : List Ticket) (nowStr : String) (d : Nat) :
    List.Forall₂ (fun old new => new.is_active =
        (old.is_active && !((invalidTokensOf
          (chatwootWebhook body table (.success (some tks)) nowStr d).submitted
          tks).contains old.expo_push_token)))
      table (chatwootWebhook body table (.success (some tks)) nowStr d).tokens := by
  have hnil : ∀ s : List DeviceToken, s = table →
      List.Forall₂ (fun old new => new.is_active =
        (old.is_active && !((invalidTokensOf [] tks).contains old.expo_push_token)))
        table s := by
    rintro s rfl
    apply List.forall₂_same.mpr
    intro x _
    simp [invalidTokensOf, invalidOfPairs]
  unfold chatwootWebhook
  split
  · exact hnil table rfl
  split
  · exact hnil table rfl
  split
  · exact hnil table rfl
  split
  · exact hnil table rfl
  dsimp only
  split
  · exact hnil table rfl
  · rw [reconcileTickets_eq]
    exact deactivateIn_forall2 table _

theorem queue_tokens_forall2 (now d : Nat) (o : Nat → GatewayResult) (f : Bool) (db : DB) :
    List.Forall₂ (fun old new => new.is_active =
        (old.is_active && !((deliveredOf now o db).2.contains old.expo_push_token)))
      db.profile_push_tokens (processQueue now o f d db).1.profile_push_tokens := by
  have hnil : (deliveredOf now o db).2 = [] →
      List.Forall₂ (fun old new => new.is_active =
        (old.is_active && !((deliveredOf now o db).2.contains old.expo_push_token)))
        db.profile_push_tokens db.profile_push_tokens := by
    intro h
    apply List.forall₂_same.mpr
    intro x _
    simp [h]
  by_cases h0 : fetchPending now db = []
  · rw [processQueue_empty o f d h0]
    exact hnil (by rw [deliveredOf_of_msgs_empty o (messagesOf_of_empty h0)])
  · by_cases hm : messagesOf now db = []
    · rw [processQueue_msgsEmpty o f d h0 hm]
      exact hnil (by rw [deliveredOf_of_msgs_empty o hm])
    · rw [processQueue_main o f d h0 hm]
      by_cases hi : ((deliveredOf now o db).2.dedup).isEmpty
      · simp only [hi, if_true]
        exact hnil ((List.dedup_eq_nil _).mp (List.isEmpty_iff.mp hi))
      · rw [Bool.not_eq_true] at hi
        simp only [hi, Bool.false_eq_true, if_false]
        exact (deactivateIn_forall2 db.profile_push_tokens _).imp
          (fun a b hab => by rwa [contains_dedup] at hab)

/-- C2: in both services, a ticket whose status is error with detail
DeviceNotRegistered deactivates exactly the token at the same position of the
submitted message array, and no other ticket status or error code contributes
a deactivation.  Stated as: (1) the invalid-token set of one call holds `t`
iff some aligned position carries an error/DeviceNotRegistered ticket whose
message went to `t`; (2) the generic webhook flips `is_active` to false
exactly on rows whose token is in that set, leaving every other row's flag
unchanged; (3) the queue's delivery loop collects `t` iff some successful
chunk has such a position; (4) the queue cycle flips `is_active` exactly on
rows whose token is in the collected set. -/
theorem claim_C2_token_deactivation :
    (∀ (msgs : List PushMessage) (tks : List Ticket) (t : String),
      t ∈ invalidTokensOf msgs tks ↔
        ∃ i, ∃ h1 : i < msgs.length, ∃ h2 : i < tks.length,
          (tks.get ⟨i, h2⟩).status = .error ∧
          (tks.get ⟨i, h2⟩).details_error = some "DeviceNotRegistered" ∧
          (msgs.get ⟨i, h1⟩).«to» = t) ∧
    (∀ (body : WebhookBody) (table : List DeviceToken) (tks : List Ticket)
        (nowStr : String) (d : Nat),
      List.Forall₂ (fun old new => new.is_active =
          (old.is_active && !((invalidTokensOf
            (chatwootWebhook body table (.success (some tks)) nowStr d).submitted
            tks).contains old.expo_push_token)))
        table (chatwootWebhook body table (.success (some tks)) nowStr d).tokens) ∧
    (∀ (o : Nat → GatewayResult) (chunks : List (List PushMessage)) (t : String) (i : Nat),
      t ∈ (deliverLoop o i chunks).2 ↔
        ∃ k, k < chunks.length ∧ ∃ tks, o (i + k) = .success (some tks) ∧
          t ∈ invalidTokensOf (chunks.getD k []) tks) ∧
    (∀ (now d : Nat) (o : Nat → GatewayResult) (f : Bool) (db : DB),
      List.Forall₂ (fun old new => new.is_active =
          (old.is_active && !((deliveredOf now o db).2.contains old.expo_push_token)))
        db.profile_push_tokens (processQueue now o f d db).1.profile_push_tokens) :=
  ⟨invalidTokensOf_mem, webhook_tokens_forall2,
    fun o chunks t i => deliverLoop_snd_mem o chunks t i, queue_tokens_forall2⟩

/-- Witness for C2: position 0 of a concrete call carries a
DeviceNotRegistered error, so its token is collected. -/
theorem claim_C2_token_deactivation_witness :
    "tokA1" ∈ invalidTokensOf [exMsg1, exMsg2]
      [⟨.error, some "DeviceNotRegistered"⟩, ⟨.ok, none⟩] :=
  (claim_C2_token_deactivation.1 [exMsg1, exMsg2]
      [⟨.error, some "DeviceNotRegistered"⟩, ⟨.ok, none⟩] "tokA1").mpr
    ⟨0, by decide, by decide, by decide, by decide, by decide⟩

/-! ## Monotonicity helpers -/

theorem markSent_markStatus_forall2 (q : List QueueEntry) (ids : List Nat)
    (s : QStatus) (now : Nat) :
    List.Forall₂ (fun a b => statusRank a.status ≤ statusRank b.status)
      q (markSent (markStatus q ids s) ids now) := by
  unfold markSent markStatus
  rw [List.map_map]
  apply forall2_map_self
  intro a _
  simp only [Function.comp_apply]
  cases hc : ids.contains a.id with
  | true =>
    simp only [hc, eq_self_iff_true, if_true]
    exact statusRank_le_two _
  | false =>
    simp only [hc, Bool.false_eq_true, if_false]
    exact le_rfl

theorem queue_status_forall2 (now d : Nat) (o : Nat → GatewayResult) (f : Bool) (db : DB)
    (hn : (db.notification_queue.map (fun e => e.id)).Nodup) :
    List.Forall₂ (fun a b => statusRank a.status ≤ statusRank b.status)
      db.notification_queue (processQueue now o f d db).1.notification_queue := by
  by_cases h0 : fetchPending now db = []
  · rw [processQueue_empty o f d h0]
    exact List.forall₂_same.mpr (fun x _ => le_rfl)
  · by_cases hm : messagesOf now db = []
    · rw [processQueue_msgsEmpty o f d h0 hm]
      exact markSent_markStatus_forall2 _ _ _ _
    · rw [processQueue_main o f d h0 hm]
      by_cases hf : f
      · simp only [hf, if_true]
        apply forall2_map_self
        intro a ha
        cases hc : ((fetchPending now db).map (fun e => e.id)).contains a.id with
        | true =>
          have hpend : a.status = .pending :=
            mem_ids_pending hn ha (by simpa using hc)
          simp only [hc, eq_self_iff_true, if_true, hpend]
          decide
        | false =>
          simp only [hc, Bool.false_eq_true, if_false]
          exact le_rfl
      · have hf2 : f = false := by simpa using hf
        simp only [hf2, Bool.false_eq_true, if_false]
        exact markSent_markStatus_forall2 _ _ _ _

theorem queue_tokens_active_mono (now d : Nat) (o : Nat → GatewayResult) (f : Bool) (db : DB) :
    List.Forall₂ (fun a b => b.is_active = true → a.is_active = true)
      db.profile_push_tokens (processQueue now o f d db).1.profile_push_tokens := by
  have hid : List.Forall₂ (fun a b => b.is_active = true → a.is_active = true)
      db.profile_push_tokens db.profile_push_tokens :=
    List.forall₂_same.mpr (fun x _ h => h)
  by_cases h0 : fetchPending now db = []
  · rw [processQueue_empty o f d h0]
    exact hid
  · by_cases hm : messagesOf now db = []
    · rw [processQueue_msgsEmpty o f d h0 hm]
      exact hid
    · rw [processQueue_main o f d h0 hm]
      by_cases hi : ((deliveredOf now o db).2.dedup).isEmpty
      · simp only [hi, if_true]
        exact hid
      · rw [Bool.not_eq_true] at hi
        simp only [hi, Bool.false_eq_true, if_false]
        exact deactivateIn_active_mono _ _

theorem webhook_tokens_active_mono (body : WebhookBody) (table : List DeviceToken)
    (gw : GatewayResult) (nowStr : String) (d : Nat) :
    List.Forall₂ (fun a b => b.is_active = true → a.is_active = true)
      table (chatwootWebhook body table gw nowStr d).tokens := by
  have hid : List.Forall₂ (fun a b => b.is_active = true → a.is_active = true) table table :=
    List.forall₂_same.mpr (fun x _ h => h)
  unfold chatwootWebhook
  split
  · exact hid
  split
  · exact hid
  split
  · exact hid
  split
  · exact hid
  dsimp only
  repeat' split
  all_goals first
    | exact hid
    | (rw [reconcileTickets_eq]; exact deactivateIn_active_mono _ _)

theorem ticketing_preserves (req : TicketingRequest) (tdb : TicketingDB) :
    (ticketingHandler req tdb).1.consultations = tdb.consultations ∧
    (ticketingHandler req tdb).1.profiles = tdb.profiles := by
  unfold ticketingHandler
  split
  · exact ⟨rfl, rfl⟩
  split
  · exact ⟨rfl, rfl⟩
  split
  · exact ⟨rfl, rfl⟩
  split
  · exact ⟨rfl, rfl⟩
  · exact ⟨rfl, rfl⟩

/-- C9: state transitions of both services are monotone: one queue cycle never
moves any `notification_queue` row backward along pending→processing→sent (for
a table with distinct ids), neither service ever flips `is_active` from false
to true, and the ticketing webhook leaves the consultations and profiles
tables untouched (it only appends chat rows). -/
theorem claim_C9_monotonicity :
    (∀ (now d : Nat) (o : Nat → GatewayResult) (f : Bool) (db : DB),
      ((db.notification_queue.map (fun e => e.id)).Nodup →
        List.Forall₂ (fun a b => statusRank a.status ≤ statusRank b.status)
          db.notification_queue (processQueue now o f d db).1.notification_queue) ∧
      List.Forall₂ (fun a b => b.is_active = true → a.is_active = true)
        db.profile_push_tokens (processQueue now o f d db).1.profile_push_tokens) ∧
    (∀ (body : WebhookBody) (table : List DeviceToken) (gw : GatewayResult)
        (nowStr : String) (d : Nat),
      List.Forall₂ (fun a b => b.is_active = true → a.is_active = true)
        table (chatwootWebhook body table gw nowStr d).tokens) ∧
    (∀ (req : TicketingRequest) (tdb : TicketingDB),
      (ticketingHandler req tdb).1.consultations = tdb.consultations ∧
      (ticketingHandler req tdb).1.profiles = tdb.profiles) :=
  ⟨fun now d o f db =>
      ⟨fun hn => queue_status_forall2 now d o f db hn, queue_tokens_active_mono now d o f db⟩,
    webhook_tokens_active_mono, ticketing_preserves⟩

/-- Witness for C9 on a concrete table with distinct ids and a failing-update
cycle. -/
theorem claim_C9_monotonicity_witness :
    List.Forall₂ (fun a b => statusRank a.status ≤ statusRank b.status)
      exDb.notification_queue (processQueue 5 exFailGw true 0 exDb).1.notification_queue :=
  (claim_C9_monotonicity.1 5 0 exFailGw true exDb).1 (by decide)

/-! ## C8: duration reporting of the generic webhook -/

/-- C8 counterexample: the validation-failure response (missing user
identifier) of the Webhook Receiver carries no `duration_ms` key, refuting
"every response includes the wall-clock duration". -/
theorem claim_C8_counterexample :
    (chatwootWebhook
      ⟨some "message_created", some "incoming", some "hola", some "User", none⟩
      [] (.success none) "T" 7).response.duration_ms = none := by decide

/-- C8 amended: a response of the generic webhook carries `duration_ms` iff it
is the push-delivery success response (the one reporting a `sent` count); the
no-op acknowledgments, the validation failure and the collaborator failure
omit it.  (The top-level catch response also adds `duration_ms`, but the model
raises no exceptions.) -/
theorem claim_C8_duration_amended (body : WebhookBody) (table : List DeviceToken)
    (gw : GatewayResult) (nowStr : String) (d : Nat) :
    (chatwootWebhook body table gw nowStr d).response.duration_ms = some d ↔
      (chatwootWebhook body table gw nowStr d).response.sent ≠ none := by
  unfold chatwootWebhook
  dsimp only
  repeat' split
  all_goals simp [noopResp]

/-- Witness for C8 amended: the success response of a concrete delivery does
carry its duration. -/
theorem claim_C8_duration_amended_witness :
    (chatwootWebhook
      ⟨some "message_created", some "incoming", some "hola", some "User", some "uA"⟩
      exTokens (.success none) "T" 7).response.duration_ms = some 7 :=
  (claim_C8_duration_amended
    ⟨some "message_created", some "incoming", some "hola", some "User", some "uA"⟩
    exTokens (.success none) "T" 7).mpr (by decide)

/-! ## C4: webhook filtering -/

/-- C4 counterexample: an incoming ticketing-shape event whose sender is an
agent (not an end user) does persist a ConsultationMessage row — the handler
attributes it to the assigned consultant — refuting "neither variant ...
persists any ConsultationMessage row". -/
theorem claim_C4_counterexample :
    ((ticketingHandler
      ⟨"POST", some "message_created", some "incoming", some "agent", some "hola", 7⟩
      ⟨[⟨1, "u1", some "cons1", "7"⟩], [], []⟩).1.consultation_messages) =
      [⟨1, "cons1", some "hola", "consultant", false⟩] := by decide

/-- C4 amended: an event with message_type outgoing triggers no push send and
no persisted row in either variant; an event whose sender type is not the
end-user type triggers no push send and no persistence in the generic variant
(which answers with a success no-op) — but the ticketing variant still
persists incoming agent messages. -/
theorem claim_C4_filtering_amended :
    (∀ (body : WebhookBody) (table : List DeviceToken) (gw : GatewayResult)
        (nowStr : String) (d : Nat),
      body.message_type = some "outgoing" ∨ body.sender_type ≠ some "User" →
        (chatwootWebhook body table gw nowStr d).submitted = [] ∧
        (chatwootWebhook body table gw nowStr d).tokens = table ∧
        (chatwootWebhook body table gw nowStr d).response.status = 200 ∧
        (chatwootWebhook body table gw nowStr d).response.ok = some true) ∧
    (∀ (req : TicketingRequest) (tdb : TicketingDB),
      req.method = "POST" → req.message_message_type = some "outgoing" →
        (ticketingHandler req tdb).1 = tdb ∧
        (ticketingHandler req tdb).2.status = 200 ∧
        (ticketingHandler req tdb).2.success = some true) := by
  constructor
  · intro body table gw nowStr d h
    unfold chatwootWebhook
    by_cases h1 : body.event ≠ some "message_created" ∨ body.message_type ≠ some "incoming"
    · rw [if_pos h1]
      exact ⟨rfl, rfl, rfl, rfl⟩
    · rw [if_neg h1]
      push_neg at h1
      have hs : body.sender_type ≠ some "User" := by
        rcases h with hmt | hs
        · exact absurd (h1.2.symm.trans hmt) (by decide)
        · exact hs
      rw [if_pos hs]
      exact ⟨rfl, rfl, rfl, rfl⟩
  · intro req tdb hpost hout
    unfold ticketingHandler
    rw [if_neg (by rw [hpost]; exact fun hne => hne rfl)]
    by_cases hev : req.event ≠ some "message_created"
    · rw [if_pos hev]
      exact ⟨rfl, rfl, rfl⟩
    · rw [if_neg hev, if_pos hout]
      exact ⟨rfl, rfl, rfl⟩

/-- Witness for C4 amended at concrete outgoing events for both variants. -/
theorem claim_C4_filtering_amended_witness :
    (chatwootWebhook
      ⟨some "message_created", some "outgoing", some "x", some "User", some "u"⟩
      [] (.success none) "T" 3).submitted = [] ∧
    (ticketingHandler
      ⟨"POST", some "message_created", some "outgoing", some "agent", some "x", 7⟩
      ⟨[⟨1, "u1", some "c1", "7"⟩], [], []⟩).1 =
      ⟨[⟨1, "u1", some "c1", "7"⟩], [], []⟩ :=
  ⟨(claim_C4_filtering_amended.1
      ⟨some "message_created", some "outgoing", some "x", some "User", some "u"⟩
      [] (.success none) "T" 3 (Or.inl rfl)).1,
    (claim_C4_filtering_amended.2
      ⟨"POST", some "message_created", some "outgoing", some "agent", some "x", 7⟩
      ⟨[⟨1, "u1", some "c1", "7"⟩], [], []⟩ rfl rfl).1⟩
